import Mathlib

/-!
# Verification of the footy-cast prediction engine

A shallow embedding of `src/prediction_engine.py` (class `FootballPredictor`)
and proofs of the specification's claims about it.

Modelling conventions:
* Python numbers are modelled as exact arithmetic: the purely rational part of
  the pipeline (team strengths, expected goals, the 2-decimal presentation
  rounding) lives in `ℚ`; everything that touches the Poisson distribution
  (`scipy.stats.poisson.pmf` / `.cdf`, which involve `exp`) lives in `ℝ`.
* Python's `round(x, n)` is modelled as round-half-up to `n` decimal places
  (`py_round1`, `py_round2q`); the half-even/half-up difference only matters
  at exact ties of the last digit, which none of the claims depend on.
* Python's `list.sort(key=..., reverse=True)` is a stable descending sort:
  elements with equal keys keep their original relative order.  It is modelled
  by `List.insertionSort` with the relation `b.key ≤ a.key`, which places a
  newly inserted (originally earlier) element in front of equal-key elements —
  the same observable behaviour.
* `_predict_scorelines` formats the scoreline string before sorting; since the
  sort never inspects the string, the embedding keeps the `(home, away)` pair
  through the sort and formats afterwards, which is observationally identical.
-/

namespace FootyCast

/-- The nine per-team input statistics (`team_data` dictionary keys). -/
structure TeamMetrics where
  xg : ℚ
  total_shots : ℚ
  shots_on_target : ℚ
  xgot : ℚ
  xa : ℚ
  passes_rate : ℚ
  tackles_rate : ℚ
  ball_recoveries : ℚ
  xgot_conceded : ℚ
deriving DecidableEq

/-- `self.offensive_weights` from `FootballPredictor.__init__`. -/
structure OffWeights where
  xg : ℚ
  total_shots : ℚ
  shots_on_target : ℚ
  xgot : ℚ
  xa : ℚ
  passes_rate : ℚ

def offensive_weights : OffWeights :=
  { xg := 0.30, total_shots := 0.08, shots_on_target := 0.12,
    xgot := 0.22, xa := 0.13, passes_rate := 0.15 }

/-- `self.defensive_weights` from `FootballPredictor.__init__`. -/
structure DefWeights where
  xgot_conceded : ℚ
  tackles_rate : ℚ
  ball_recoveries : ℚ

def defensive_weights : DefWeights :=
  { xgot_conceded := 0.40, tackles_rate := 0.30, ball_recoveries := 0.30 }

/-- `FootballPredictor.calculate_team_strength`: returns
`(offensive_score, defensive_score)`. -/
def calculate_team_strength (t : TeamMetrics) : ℚ × ℚ :=
  ( t.xg * offensive_weights.xg +
    (t.total_shots / 20) * offensive_weights.total_shots +
    (t.shots_on_target / 10) * offensive_weights.shots_on_target +
    t.xgot * offensive_weights.xgot +
    t.xa * offensive_weights.xa +
    (t.passes_rate / 100) * offensive_weights.passes_rate,
    (1 / (t.xgot_conceded + 0.1)) * defensive_weights.xgot_conceded +
    (t.tackles_rate / 100) * defensive_weights.tackles_rate +
    (t.ball_recoveries / 100) * defensive_weights.ball_recoveries )

/-- The local `home_advantage = 1.15` of `predict_match_outcome`. -/
def home_advantage : ℚ := 1.15

/-- `home_expected_goals` of `predict_match_outcome`, with the home-advantage
multiplier as a parameter (the code binds it to the local `home_advantage`). -/
def home_expected_goals_adv (adv : ℚ) (home_data away_data : TeamMetrics) : ℚ :=
  home_data.xg * adv * (1 / ((calculate_team_strength away_data).2 + 0.5))

/-- `home_expected_goals = home_data['xg'] * home_advantage * (1 / (away_def + 0.5))`. -/
def home_expected_goals (home_data away_data : TeamMetrics) : ℚ :=
  home_expected_goals_adv home_advantage home_data away_data

/-- `away_expected_goals = away_data['xg'] * (1 / (home_def + 0.5))`. -/
def away_expected_goals (home_data away_data : TeamMetrics) : ℚ :=
  away_data.xg * (1 / ((calculate_team_strength home_data).2 + 0.5))

/-- Python `round(x, 2)` on the rational values of the pipeline
(round-half-up to 2 decimal places). -/
def py_round2q (x : ℚ) : ℚ := (round (100 * x) : ℤ) / 100

/-- Python `round(x, 1)` on real values (round-half-up to 1 decimal place). -/
noncomputable def py_round1 (x : ℝ) : ℝ := ((round (10 * x) : ℤ) : ℝ) / 10

/-- `scipy.stats.poisson.pmf k lam = exp (-lam) * lam ^ k / k!`
(the code only evaluates it at natural-number counts `k`). -/
noncomputable def poisson_pmf (k : ℕ) (lam : ℝ) : ℝ :=
  Real.exp (-lam) * lam ^ k / (Nat.factorial k)

/-- `scipy.stats.poisson.cdf x lam = ∑_{k ≤ ⌊x⌋} pmf k lam` (0 for `x < 0`). -/
noncomputable def poisson_cdf (x lam : ℝ) : ℝ :=
  ∑ k ∈ Finset.range (⌊x⌋ + 1).toNat, poisson_pmf k lam

/-- The `win_probabilities` output dictionary. -/
structure WinProbs where
  home_win : ℝ
  draw : ℝ
  away_win : ℝ

/-- The home-win accumulator of `_calculate_win_probabilities`: mass of the
cells of the 8×8 goal grid where `home_goals > away_goals`. -/
noncomputable def home_win_prob (home_xg away_xg : ℝ) : ℝ :=
  ∑ home_goals ∈ Finset.range 8, ∑ away_goals ∈ Finset.range 8,
    if away_goals < home_goals then
      poisson_pmf home_goals home_xg * poisson_pmf away_goals away_xg
    else 0

/-- The draw accumulator of `_calculate_win_probabilities`. -/
noncomputable def draw_prob (home_xg away_xg : ℝ) : ℝ :=
  ∑ home_goals ∈ Finset.range 8, ∑ away_goals ∈ Finset.range 8,
    if home_goals = away_goals then
      poisson_pmf home_goals home_xg * poisson_pmf away_goals away_xg
    else 0

/-- The away-win accumulator of `_calculate_win_probabilities`. -/
noncomputable def away_win_prob (home_xg away_xg : ℝ) : ℝ :=
  ∑ home_goals ∈ Finset.range 8, ∑ away_goals ∈ Finset.range 8,
    if home_goals < away_goals then
      poisson_pmf home_goals home_xg * poisson_pmf away_goals away_xg
    else 0

/-- `total = home_win_prob + draw_prob + away_win_prob`. -/
noncomputable def win_total (home_xg away_xg : ℝ) : ℝ :=
  home_win_prob home_xg away_xg + draw_prob home_xg away_xg +
    away_win_prob home_xg away_xg

/-- `FootballPredictor._calculate_win_probabilities`. -/
noncomputable def calculate_win_probabilities (home_xg away_xg : ℝ) : WinProbs :=
  { home_win := py_round1 (home_win_prob home_xg away_xg / win_total home_xg away_xg * 100),
    draw := py_round1 (draw_prob home_xg away_xg / win_total home_xg away_xg * 100),
    away_win := py_round1 (away_win_prob home_xg away_xg / win_total home_xg away_xg * 100) }

/-- The `btts` output dictionary. -/
structure BTTSResult where
  prediction : String
  probability : ℝ

/-- The defensive adjustment factor of `_predict_btts`:
`min(1.15, 1 + (xgot_conceded - 1.0) * 0.1)`. -/
def btts_def_factor (xgc : ℚ) : ℚ := min 1.15 (1 + (xgc - 1.0) * 0.1)

/-- `FootballPredictor._predict_btts`. -/
noncomputable def predict_btts (home_xg away_xg : ℝ)
    (home_data away_data : TeamMetrics) : BTTSResult :=
  let home_base := 1 - poisson_pmf 0 home_xg
  let away_base := 1 - poisson_pmf 0 away_xg
  let home_def_factor : ℝ := (btts_def_factor home_data.xgot_conceded : ℚ)
  let away_def_factor : ℝ := (btts_def_factor away_data.xgot_conceded : ℚ)
  let home_scoring_prob := min 0.99 (home_base * away_def_factor)
  let away_scoring_prob := min 0.99 (away_base * home_def_factor)
  let btts_percentage := py_round1 (home_scoring_prob * away_scoring_prob * 100)
  { prediction := if 50 ≤ btts_percentage then "Yes" else "No",
    probability := btts_percentage }

/-- One entry of the `over_under` output dictionary. -/
structure OverUnderEntry where
  over : ℝ
  under : ℝ
  prediction : String

/-- `over_prob = 1 - poisson.cdf(threshold - 0.5, lambda)` in `_predict_over_under`. -/
noncomputable def over_prob (threshold lam : ℝ) : ℝ :=
  1 - poisson_cdf (threshold - 0.5) lam

/-- The dictionary entry built for one threshold in `_predict_over_under`. -/
noncomputable def over_under_entry (threshold lam : ℝ) : OverUnderEntry :=
  let over_percentage := py_round1 (over_prob threshold lam * 100)
  { over := over_percentage,
    under := py_round1 (100 - over_percentage),
    prediction := if 50 ≤ over_percentage then "Over" else "Under" }

/-- The `over_under` output dictionary, keyed by threshold `1.5 / 2.5 / 3.5`. -/
structure OverUnderTable where
  t15 : OverUnderEntry
  t25 : OverUnderEntry
  t35 : OverUnderEntry

/-- `FootballPredictor._predict_over_under`: `total_xg = home_xg + away_xg`
is used as the single Poisson rate for all three thresholds. -/
noncomputable def predict_over_under (home_xg away_xg : ℝ) : OverUnderTable :=
  { t15 := over_under_entry 1.5 (home_xg + away_xg),
    t25 := over_under_entry 2.5 (home_xg + away_xg),
    t35 := over_under_entry 3.5 (home_xg + away_xg) }

/-- One entry of the `scorelines` output list. -/
structure ScorelineEntry where
  scoreline : String
  probability : ℝ

/-- The 36 `(home_goals, away_goals)` pairs in the enumeration order of the
two nested `range(6)` loops of `_predict_scorelines` (ascending lexicographic). -/
def score_grid : List (ℕ × ℕ) :=
  (List.range 6).flatMap fun home_goals =>
    (List.range 6).map fun away_goals => (home_goals, away_goals)

/-- The raw `scoreline_probs` list of `_predict_scorelines`: each grid cell
with its joint Poisson probability, in enumeration order. -/
noncomputable def scoreline_probs (home_xg away_xg : ℝ) : List ((ℕ × ℕ) × ℝ) :=
  score_grid.map fun p => (p, poisson_pmf p.1 home_xg * poisson_pmf p.2 away_xg)

/-- The relation of the descending stable sort
`scoreline_probs.sort(key=lambda x: x['probability'], reverse=True)`. -/
def desc_by_prob (a b : (ℕ × ℕ) × ℝ) : Prop := b.2 ≤ a.2

noncomputable instance : DecidableRel desc_by_prob := fun a b =>
  Real.decidableLE b.2 a.2

/-- Ascending lexicographic order on `(home_goals, away_goals)` pairs — the
enumeration order of the two nested loops. -/
def lex_lt (p q : ℕ × ℕ) : Prop := p.1 < q.1 ∨ (p.1 = q.1 ∧ p.2 < q.2)

instance : DecidableRel lex_lt := fun p q => by
  unfold lex_lt
  infer_instance

/-- The order in which the stable descending sort emits the grid cells:
strictly larger probability first, and exact probability ties resolved to the
lexicographically-earlier (home, away) pair. -/
def rank_order (a b : (ℕ × ℕ) × ℝ) : Prop :=
  b.2 < a.2 ∨ (a.2 = b.2 ∧ lex_lt a.1 b.1)

/-- `FootballPredictor._predict_scorelines`: stable-sort the 36 cells by
descending probability, take the first 3, format `"h-a"` and convert the
probability to a rounded percentage. -/
noncomputable def predict_scorelines (home_xg away_xg : ℝ) : List ScorelineEntry :=
  ((List.insertionSort desc_by_prob (scoreline_probs home_xg away_xg)).take 3).map
    fun q => { scoreline := toString q.1.1 ++ "-" ++ toString q.1.2,
               probability := py_round1 (q.2 * 100) }

/-- The `expected_goals` output dictionary (2-decimal presentation rounding). -/
structure ExpectedGoals where
  home : ℚ
  away : ℚ
  total : ℚ

/-- The full output dictionary of `predict_match_outcome`. -/
structure MatchPrediction where
  win_probabilities : WinProbs
  btts : BTTSResult
  over_under : OverUnderTable
  scorelines : List ScorelineEntry
  expected_goals : ExpectedGoals

/-- `FootballPredictor.predict_match_outcome`. -/
noncomputable def predict_match_outcome (home_data away_data : TeamMetrics) :
    MatchPrediction :=
  let heg := home_expected_goals home_data away_data
  let aeg := away_expected_goals home_data away_data
  { win_probabilities := calculate_win_probabilities (heg : ℝ) (aeg : ℝ),
    btts := predict_btts (heg : ℝ) (aeg : ℝ) home_data away_data,
    over_under := predict_over_under (heg : ℝ) (aeg : ℝ),
    scorelines := predict_scorelines (heg : ℝ) (aeg : ℝ),
    expected_goals :=
      { home := py_round2q heg, away := py_round2q aeg,
        total := py_round2q (heg + aeg) } }

/-- A sample home-team record (realistic in-range statistics). -/
def sampleA : TeamMetrics :=
  { xg := 1.5, total_shots := 10, shots_on_target := 5, xgot := 1.2, xa := 0.9,
    passes_rate := 85, tackles_rate := 60, ball_recoveries := 50,
    xgot_conceded := 1.1 }

/-- A sample away-team record (realistic in-range statistics). -/
def sampleB : TeamMetrics :=
  { xg := 1.2, total_shots := 8, shots_on_target := 4, xgot := 1.0, xa := 0.7,
    passes_rate := 80, tackles_rate := 55, ball_recoveries := 45,
    xgot_conceded := 1.3 }

/-- A home record tuned so that the unrounded home expected goals are 1.004
(its opponent `sampleD` has defensive score exactly 0.5). -/
def sampleC : TeamMetrics :=
  { xg := 502/575, total_shots := 0, shots_on_target := 0, xgot := 0, xa := 0,
    passes_rate := 0, tackles_rate := 0, ball_recoveries := 0,
    xgot_conceded := 0.7 }

/-- An away record tuned so that the unrounded away expected goals are 1.004
(its opponent `sampleC` has defensive score exactly 0.5). -/
def sampleD : TeamMetrics :=
  { xg := 251/250, total_shots := 0, shots_on_target := 0, xgot := 0, xa := 0,
    passes_rate := 0, tackles_rate := 0, ball_recoveries := 0,
    xgot_conceded := 0.7 }

/-! ## Helper lemmas about the rounding functions and the Poisson mass -/

theorem py_round1_mono {x y : ℝ} (h : x ≤ y) : py_round1 x ≤ py_round1 y := by
  unfold py_round1
  have h1 : round (10 * x) ≤ round (10 * y) := by
    rw [round_eq, round_eq]
    exact Int.floor_mono (by linarith)
  have h2 : ((round (10 * x) : ℤ) : ℝ) ≤ ((round (10 * y) : ℤ) : ℝ) := by
    exact_mod_cast h1
  linarith

theorem abs_py_round1_sub (x : ℝ) : |py_round1 x - x| ≤ 1 / 20 := by
  unfold py_round1
  have h := abs_sub_round (α := ℝ) (10 * x)
  rw [abs_le] at h ⊢
  constructor <;> [linarith [h.1]; linarith [h.2]]

theorem py_round1_int_tenths (n : ℤ) : py_round1 ((n : ℝ) / 10) = (n : ℝ) / 10 := by
  unfold py_round1
  rw [show (10 : ℝ) * ((n : ℝ) / 10) = (n : ℝ) by ring, round_intCast]

theorem py_round1_zero : py_round1 0 = 0 := by
  unfold py_round1
  simp

theorem py_round1_hundred : py_round1 100 = 100 := by
  have h := py_round1_int_tenths 1000
  norm_num at h
  exact h

theorem poisson_pmf_nonneg (k : ℕ) {lam : ℝ} (h : 0 ≤ lam) :
    0 ≤ poisson_pmf k lam := by
  unfold poisson_pmf
  have h1 : (0 : ℝ) < Real.exp (-lam) := Real.exp_pos _
  have h2 : (0 : ℝ) ≤ lam ^ k := pow_nonneg h k
  have h3 : (0 : ℝ) < (Nat.factorial k : ℝ) := by
    exact_mod_cast Nat.factorial_pos k
  positivity

theorem poisson_pmf_pos (k : ℕ) {lam : ℝ} (h : 0 < lam) :
    0 < poisson_pmf k lam := by
  unfold poisson_pmf
  have h1 : (0 : ℝ) < Real.exp (-lam) := Real.exp_pos _
  have h2 : (0 : ℝ) < lam ^ k := pow_pos h k
  have h3 : (0 : ℝ) < (Nat.factorial k : ℝ) := by
    exact_mod_cast Nat.factorial_pos k
  positivity

theorem poisson_pmf_zero_count (lam : ℝ) : poisson_pmf 0 lam = Real.exp (-lam) := by
  unfold poisson_pmf
  simp

theorem poisson_pmf_zero_rate_succ (k : ℕ) : poisson_pmf (k + 1) 0 = 0 := by
  unfold poisson_pmf
  simp

/-! ## Claim theorems -/

/-- C1: the engine's expected goals are
`homeXG = home.xg * 1.15 * (1 / (awayDefensiveScore + 0.5))` and
`awayXG = away.xg * (1 / (homeDefensiveScore + 0.5))`, where each defensive
score is `0.40*(1/(xgotConceded+0.1)) + 0.30*(tacklesRate/100) +
0.30*(ballRecoveries/100)`; the 1.15 home-advantage multiplier hits only the
home side, and the offensive fields (hence the offensive scores) do not
influence the expected goals: any two record pairs agreeing on `xg` and the
three defensive fields produce the same expected goals. -/
theorem expected_goals_formula (home_data away_data h2 a2 : TeamMetrics)
    (hhx : h2.xg = home_data.xg)
    (hhc : h2.xgot_conceded = home_data.xgot_conceded)
    (hht : h2.tackles_rate = home_data.tackles_rate)
    (hhb : h2.ball_recoveries = home_data.ball_recoveries)
    (hax : a2.xg = away_data.xg)
    (hac : a2.xgot_conceded = away_data.xgot_conceded)
    (hat : a2.tackles_rate = away_data.tackles_rate)
    (hab : a2.ball_recoveries = away_data.ball_recoveries) :
    home_expected_goals home_data away_data =
      home_data.xg * 1.15 *
        (1 / (0.40 * (1 / (away_data.xgot_conceded + 0.1)) +
              0.30 * (away_data.tackles_rate / 100) +
              0.30 * (away_data.ball_recoveries / 100) + 0.5)) ∧
    away_expected_goals home_data away_data =
      away_data.xg *
        (1 / (0.40 * (1 / (home_data.xgot_conceded + 0.1)) +
              0.30 * (home_data.tackles_rate / 100) +
              0.30 * (home_data.ball_recoveries / 100) + 0.5)) ∧
    home_expected_goals h2 a2 = home_expected_goals home_data away_data ∧
    away_expected_goals h2 a2 = away_expected_goals home_data away_data := by
  refine ⟨?_, ?_, ?_, ?_⟩ <;>
    simp only [home_expected_goals, home_expected_goals_adv, away_expected_goals,
      home_advantage, calculate_team_strength, defensive_weights, hhx, hhc, hht,
      hhb, hax, hac, hat, hab] <;> ring

theorem expected_goals_formula_witness :
    home_expected_goals sampleA sampleB =
      sampleA.xg * 1.15 *
        (1 / (0.40 * (1 / (sampleB.xgot_conceded + 0.1)) +
              0.30 * (sampleB.tackles_rate / 100) +
              0.30 * (sampleB.ball_recoveries / 100) + 0.5)) ∧
    away_expected_goals sampleA sampleB =
      sampleB.xg *
        (1 / (0.40 * (1 / (sampleA.xgot_conceded + 0.1)) +
              0.30 * (sampleA.tackles_rate / 100) +
              0.30 * (sampleA.ball_recoveries / 100) + 0.5)) ∧
    home_expected_goals sampleA sampleB = home_expected_goals sampleA sampleB ∧
    away_expected_goals sampleA sampleB = away_expected_goals sampleA sampleB :=
  expected_goals_formula sampleA sampleB sampleA sampleB rfl rfl rfl rfl rfl rfl rfl rfl

theorem over_under_entry_sum (t lam : ℝ) :
    (over_under_entry t lam).over + (over_under_entry t lam).under = 100 := by
  show py_round1 (over_prob t lam * 100) +
      py_round1 (100 - py_round1 (over_prob t lam * 100)) = 100
  set n : ℤ := round (10 * (over_prob t lam * 100)) with hn
  have hov : py_round1 (over_prob t lam * 100) = (n : ℝ) / 10 := by
    rw [py_round1, ← hn]
  rw [hov]
  have h2 : (100 : ℝ) - (n : ℝ) / 10 = ((1000 - n : ℤ) : ℝ) / 10 := by
    push_cast; ring
  rw [h2, py_round1_int_tenths]
  push_cast; ring

theorem over_under_entry_label (t lam : ℝ) :
    (over_under_entry t lam).prediction = "Over" ↔
      50 ≤ (over_under_entry t lam).over := by
  show (if 50 ≤ py_round1 (over_prob t lam * 100) then "Over" else "Under") = "Over" ↔
    50 ≤ py_round1 (over_prob t lam * 100)
  split_ifs with h
  · exact iff_of_true rfl h
  · exact iff_of_false (by decide) h

/-- C3: for every input and every threshold T in {1.5, 2.5, 3.5}, the over
percentage is `round1(100 * (1 - PoissonCDF(T - 0.5, homeXG + awayXG)))`, the
under percentage is the exact complement so that `over + under = 100` exactly,
and the label is "Over" exactly when `over ≥ 50`. -/
theorem over_under_spec (home_xg away_xg : ℝ) :
    ((predict_over_under home_xg away_xg).t15.over =
        py_round1 ((1 - poisson_cdf (1.5 - 0.5) (home_xg + away_xg)) * 100) ∧
      (predict_over_under home_xg away_xg).t15.over +
        (predict_over_under home_xg away_xg).t15.under = 100 ∧
      ((predict_over_under home_xg away_xg).t15.prediction = "Over" ↔
        50 ≤ (predict_over_under home_xg away_xg).t15.over)) ∧
    ((predict_over_under home_xg away_xg).t25.over =
        py_round1 ((1 - poisson_cdf (2.5 - 0.5) (home_xg + away_xg)) * 100) ∧
      (predict_over_under home_xg away_xg).t25.over +
        (predict_over_under home_xg away_xg).t25.under = 100 ∧
      ((predict_over_under home_xg away_xg).t25.prediction = "Over" ↔
        50 ≤ (predict_over_under home_xg away_xg).t25.over)) ∧
    ((predict_over_under home_xg away_xg).t35.over =
        py_round1 ((1 - poisson_cdf (3.5 - 0.5) (home_xg + away_xg)) * 100) ∧
      (predict_over_under home_xg away_xg).t35.over +
        (predict_over_under home_xg away_xg).t35.under = 100 ∧
      ((predict_over_under home_xg away_xg).t35.prediction = "Over" ↔
        50 ≤ (predict_over_under home_xg away_xg).t35.over)) :=
  ⟨⟨rfl, over_under_entry_sum _ _, over_under_entry_label _ _⟩,
   ⟨rfl, over_under_entry_sum _ _, over_under_entry_label _ _⟩,
   ⟨rfl, over_under_entry_sum _ _, over_under_entry_label _ _⟩⟩

theorem btts_def_factor_lb {xgc : ℚ} (h : 0 ≤ xgc) : 0.9 ≤ btts_def_factor xgc := by
  unfold btts_def_factor
  exact le_min (by norm_num) (by linarith)

theorem btts_def_factor_lt_one {xgc : ℚ} (hx : xgc < 1) : btts_def_factor xgc < 1 := by
  unfold btts_def_factor
  have h1 : (1 : ℚ) + (xgc - 1.0) * 0.1 < 1 := by linarith
  exact lt_of_le_of_lt (min_le_right _ _) h1

theorem btts_def_factor_cast_lb {xgc : ℚ} (h : 0 ≤ xgc) :
    (9/10 : ℝ) ≤ ((btts_def_factor xgc : ℚ) : ℝ) := by
  have h1 := btts_def_factor_lb h
  have h2 : ((0.9 : ℚ) : ℝ) ≤ ((btts_def_factor xgc : ℚ) : ℝ) := Rat.cast_le.2 h1
  have h3 : ((0.9 : ℚ) : ℝ) = 9/10 := by norm_num
  linarith

/-- C9: the BTTS defensive factor `min(1.15, 1 + (xgotConceded - 1.0)*0.1)`
has no lower clamp: for every non-negative `xgotConceded` it lies in
[0.9, 1.15], and for `xgotConceded < 1` it is strictly below 1, so it strictly
reduces any positive scoring probability it multiplies. -/
theorem btts_factor_range (xgc : ℚ) (h : 0 ≤ xgc) :
    0.9 ≤ btts_def_factor xgc ∧ btts_def_factor xgc ≤ 1.15 ∧
      (xgc < 1 → btts_def_factor xgc < 1) ∧
      (xgc < 1 → ∀ base : ℝ, 0 < base →
        base * ((btts_def_factor xgc : ℚ) : ℝ) < base) := by
  refine ⟨btts_def_factor_lb h, ?_, fun hx => btts_def_factor_lt_one hx, ?_⟩
  · unfold btts_def_factor
    exact min_le_left _ _
  · intro hx base hb
    have h1 : ((btts_def_factor xgc : ℚ) : ℝ) < 1 := by
      exact_mod_cast btts_def_factor_lt_one hx
    nlinarith

theorem btts_factor_range_witness :
    (0 : ℚ) ≤ 1/2 ∧
      (0.9 ≤ btts_def_factor (1/2) ∧ btts_def_factor (1/2) ≤ 1.15 ∧
        ((1/2 : ℚ) < 1 → btts_def_factor (1/2) < 1) ∧
        ((1/2 : ℚ) < 1 → ∀ base : ℝ, 0 < base →
          base * ((btts_def_factor (1/2) : ℚ) : ℝ) < base)) :=
  ⟨by norm_num, btts_factor_range (1/2) (by norm_num)⟩

/-- C10: `expected_goals.total` is the 2-decimal rounding of the sum of the
two unrounded expected-goal scalars, and for some inputs (`sampleC`/`sampleD`)
it differs from the sum of the two rounded fields. -/
theorem expected_total_from_unrounded :
    (∀ home_data away_data : TeamMetrics,
      (predict_match_outcome home_data away_data).expected_goals.total =
        py_round2q (home_expected_goals home_data away_data +
          away_expected_goals home_data away_data)) ∧
    (predict_match_outcome sampleC sampleD).expected_goals.total ≠
      (predict_match_outcome sampleC sampleD).expected_goals.home +
        (predict_match_outcome sampleC sampleD).expected_goals.away := by
  constructor
  · intro hd ad
    rfl
  · show py_round2q (home_expected_goals sampleC sampleD +
        away_expected_goals sampleC sampleD) ≠
      py_round2q (home_expected_goals sampleC sampleD) +
        py_round2q (away_expected_goals sampleC sampleD)
    have hh : home_expected_goals sampleC sampleD = 251/250 := by
      norm_num [home_expected_goals, home_expected_goals_adv, calculate_team_strength,
        defensive_weights, home_advantage, sampleC, sampleD]
    have ha : away_expected_goals sampleC sampleD = 251/250 := by
      norm_num [away_expected_goals, calculate_team_strength, defensive_weights,
        sampleC, sampleD]
    rw [hh, ha]
    have h1 : round ((100:ℚ) * (251/250 + 251/250)) = 201 := by
      rw [round_eq, Int.floor_eq_iff]
      norm_num
    have h2 : round ((100:ℚ) * (251/250)) = 100 := by
      rw [round_eq, Int.floor_eq_iff]
      norm_num
    unfold py_round2q
    rw [h1, h2]
    norm_num

theorem py_round1_le_clamp (x : ℝ) (hx : x ≤ 98.01) : py_round1 x ≤ 98.01 := by
  have h980 : round (980.1 : ℝ) = 980 := by
    rw [round_eq, Int.floor_eq_iff]
    norm_num
  have hval : py_round1 (98.01 : ℝ) = 98 := by
    unfold py_round1
    rw [show (10 : ℝ) * 98.01 = 980.1 by norm_num, h980]
    norm_num
  calc py_round1 x ≤ py_round1 (98.01 : ℝ) := py_round1_mono hx
  _ = 98 := hval
  _ ≤ 98.01 := by norm_num

/-- C5: the BTTS estimator multiplies each team's base scoring probability
`1 - P(Poisson(xg) = 0)` by the factor derived from the opponent's
`xgot_conceded`, clamps each adjusted probability at 0.99, and reports the
product as a rounded percentage; the reported probability lies in [0, 98.01]
and the label is "Yes" exactly when it is at least 50. -/
theorem btts_spec (home_xg away_xg : ℝ) (home_data away_data : TeamMetrics)
    (hh : 0 ≤ home_xg) (ha : 0 ≤ away_xg)
    (hhc : 0 ≤ home_data.xgot_conceded) (hac : 0 ≤ away_data.xgot_conceded) :
    (predict_btts home_xg away_xg home_data away_data).probability =
      py_round1 (min 0.99 ((1 - poisson_pmf 0 home_xg) *
          ((btts_def_factor away_data.xgot_conceded : ℚ) : ℝ)) *
        min 0.99 ((1 - poisson_pmf 0 away_xg) *
          ((btts_def_factor home_data.xgot_conceded : ℚ) : ℝ)) * 100) ∧
    0 ≤ (predict_btts home_xg away_xg home_data away_data).probability ∧
    (predict_btts home_xg away_xg home_data away_data).probability ≤ 98.01 ∧
    ((predict_btts home_xg away_xg home_data away_data).prediction = "Yes" ↔
      50 ≤ (predict_btts home_xg away_xg home_data away_data).probability) := by
  have hfa : (9/10 : ℝ) ≤ ((btts_def_factor away_data.xgot_conceded : ℚ) : ℝ) :=
    btts_def_factor_cast_lb hac
  have hfh : (9/10 : ℝ) ≤ ((btts_def_factor home_data.xgot_conceded : ℚ) : ℝ) :=
    btts_def_factor_cast_lb hhc
  have hbh : 0 ≤ 1 - poisson_pmf 0 home_xg := by
    rw [poisson_pmf_zero_count]
    have := Real.exp_le_one_iff.2 (by linarith : -home_xg ≤ 0)
    linarith
  have hba : 0 ≤ 1 - poisson_pmf 0 away_xg := by
    rw [poisson_pmf_zero_count]
    have := Real.exp_le_one_iff.2 (by linarith : -away_xg ≤ 0)
    linarith
  set hs := min (0.99 : ℝ) ((1 - poisson_pmf 0 home_xg) *
    ((btts_def_factor away_data.xgot_conceded : ℚ) : ℝ)) with hhs
  set bs := min (0.99 : ℝ) ((1 - poisson_pmf 0 away_xg) *
    ((btts_def_factor home_data.xgot_conceded : ℚ) : ℝ)) with hbs
  have hs0 : 0 ≤ hs := le_min (by norm_num) (mul_nonneg hbh (by linarith))
  have bs0 : 0 ≤ bs := le_min (by norm_num) (mul_nonneg hba (by linarith))
  have hs1 : hs ≤ 0.99 := min_le_left _ _
  have bs1 : bs ≤ 0.99 := min_le_left _ _
  have hprod : hs * bs * 100 ≤ 98.01 := by nlinarith
  have hprod0 : 0 ≤ hs * bs * 100 := by positivity
  have hpe : (predict_btts home_xg away_xg home_data away_data).probability =
      py_round1 (hs * bs * 100) := rfl
  refine ⟨hpe, ?_, ?_, ?_⟩
  · rw [hpe, ← py_round1_zero]
    exact py_round1_mono hprod0
  · rw [hpe]
    exact py_round1_le_clamp _ hprod
  · show (if 50 ≤ py_round1 (hs * bs * 100) then "Yes" else "No") = "Yes" ↔
      50 ≤ py_round1 (hs * bs * 100)
    split_ifs with h
    · exact iff_of_true rfl h
    · exact iff_of_false (by decide) h

theorem btts_spec_witness :
    (predict_btts 1 1 sampleA sampleB).probability =
      py_round1 (min 0.99 ((1 - poisson_pmf 0 1) *
          ((btts_def_factor sampleB.xgot_conceded : ℚ) : ℝ)) *
        min 0.99 ((1 - poisson_pmf 0 1) *
          ((btts_def_factor sampleA.xgot_conceded : ℚ) : ℝ)) * 100) ∧
    0 ≤ (predict_btts 1 1 sampleA sampleB).probability ∧
    (predict_btts 1 1 sampleA sampleB).probability ≤ 98.01 ∧
    ((predict_btts 1 1 sampleA sampleB).prediction = "Yes" ↔
      50 ≤ (predict_btts 1 1 sampleA sampleB).probability) :=
  btts_spec 1 1 sampleA sampleB (by norm_num) (by norm_num)
    (by norm_num [sampleA]) (by norm_num [sampleB])

theorem win_total_eq (home_xg away_xg : ℝ) :
    win_total home_xg away_xg =
      ∑ i ∈ Finset.range 8, ∑ j ∈ Finset.range 8,
        poisson_pmf i home_xg * poisson_pmf j away_xg := by
  unfold win_total home_win_prob draw_prob away_win_prob
  rw [← Finset.sum_add_distrib, ← Finset.sum_add_distrib]
  refine Finset.sum_congr rfl fun i _ => ?_
  rw [← Finset.sum_add_distrib, ← Finset.sum_add_distrib]
  refine Finset.sum_congr rfl fun j _ => ?_
  rcases lt_trichotomy j i with hlt | heq | hgt
  · rw [if_pos hlt, if_neg (by omega), if_neg (by omega)]
    ring
  · rw [if_neg (by omega), if_pos (by omega), if_neg (by omega)]
    ring
  · rw [if_neg (by omega), if_neg (by omega), if_pos hgt]
    ring

theorem home_win_prob_nonneg {home_xg away_xg : ℝ}
    (hh : 0 ≤ home_xg) (ha : 0 ≤ away_xg) : 0 ≤ home_win_prob home_xg away_xg := by
  refine Finset.sum_nonneg fun i _ => Finset.sum_nonneg fun j _ => ?_
  split_ifs
  · exact mul_nonneg (poisson_pmf_nonneg i hh) (poisson_pmf_nonneg j ha)
  · exact le_refl 0

theorem draw_prob_nonneg {home_xg away_xg : ℝ}
    (hh : 0 ≤ home_xg) (ha : 0 ≤ away_xg) : 0 ≤ draw_prob home_xg away_xg := by
  refine Finset.sum_nonneg fun i _ => Finset.sum_nonneg fun j _ => ?_
  split_ifs
  · exact mul_nonneg (poisson_pmf_nonneg i hh) (poisson_pmf_nonneg j ha)
  · exact le_refl 0

theorem away_win_prob_nonneg {home_xg away_xg : ℝ}
    (hh : 0 ≤ home_xg) (ha : 0 ≤ away_xg) : 0 ≤ away_win_prob home_xg away_xg := by
  refine Finset.sum_nonneg fun i _ => Finset.sum_nonneg fun j _ => ?_
  split_ifs
  · exact mul_nonneg (poisson_pmf_nonneg i hh) (poisson_pmf_nonneg j ha)
  · exact le_refl 0

theorem win_total_pos {home_xg away_xg : ℝ}
    (hh : 0 ≤ home_xg) (ha : 0 ≤ away_xg) : 0 < win_total home_xg away_xg := by
  rw [win_total_eq]
  have hcell : 0 < poisson_pmf 0 home_xg * poisson_pmf 0 away_xg := by
    rw [poisson_pmf_zero_count, poisson_pmf_zero_count]
    exact mul_pos (Real.exp_pos _) (Real.exp_pos _)
  have hrow : poisson_pmf 0 home_xg * poisson_pmf 0 away_xg ≤
      ∑ j ∈ Finset.range 8, poisson_pmf 0 home_xg * poisson_pmf j away_xg := by
    refine Finset.single_le_sum (f := fun j => poisson_pmf 0 home_xg * poisson_pmf j away_xg)
      (fun j _ => mul_nonneg (poisson_pmf_nonneg 0 hh) (poisson_pmf_nonneg j ha)) ?_
    norm_num
  have hgrid : ∑ j ∈ Finset.range 8, poisson_pmf 0 home_xg * poisson_pmf j away_xg ≤
      ∑ i ∈ Finset.range 8, ∑ j ∈ Finset.range 8,
        poisson_pmf i home_xg * poisson_pmf j away_xg := by
    refine Finset.single_le_sum
      (f := fun i => ∑ j ∈ Finset.range 8, poisson_pmf i home_xg * poisson_pmf j away_xg)
      (fun i _ => Finset.sum_nonneg fun j _ =>
        mul_nonneg (poisson_pmf_nonneg i hh) (poisson_pmf_nonneg j ha)) ?_
    norm_num
  linarith

/-- Three rounded tenths whose unrounded values sum to 100 sum to 100 up to
one tenth: the rounded sum is a multiple of 1/10 within 3/20 of 100. -/
theorem three_round_sum {x y z : ℝ} (hxyz : x + y + z = 100) :
    |py_round1 x + py_round1 y + py_round1 z - 100| ≤ 1/10 := by
  set n1 : ℤ := round (10 * x) with hn1
  set n2 : ℤ := round (10 * y) with hn2
  set n3 : ℤ := round (10 * z) with hn3
  have e1 : py_round1 x = (n1 : ℝ) / 10 := by rw [py_round1, ← hn1]
  have e2 : py_round1 y = (n2 : ℝ) / 10 := by rw [py_round1, ← hn2]
  have e3 : py_round1 z = (n3 : ℝ) / 10 := by rw [py_round1, ← hn3]
  have b1 := abs_sub_round (α := ℝ) (10 * x)
  have b2 := abs_sub_round (α := ℝ) (10 * y)
  have b3 := abs_sub_round (α := ℝ) (10 * z)
  rw [← hn1] at b1
  rw [← hn2] at b2
  rw [← hn3] at b3
  rw [abs_le] at b1 b2 b3
  have hint : ((n1 + n2 + n3 - 1000 : ℤ) : ℝ) ≤ 3/2 ∧
      (-(3/2) : ℝ) ≤ ((n1 + n2 + n3 - 1000 : ℤ) : ℝ) := by
    push_cast
    constructor <;> nlinarith [b1.1, b1.2, b2.1, b2.2, b3.1, b3.2]
  have habs : n1 + n2 + n3 - 1000 ≤ 1 ∧ -1 ≤ n1 + n2 + n3 - 1000 := by
    constructor
    · have : ((n1 + n2 + n3 - 1000 : ℤ) : ℝ) < 2 := by linarith [hint.1]
      have h2 : n1 + n2 + n3 - 1000 < 2 := by exact_mod_cast this
      omega
    · have : (-2 : ℝ) < ((n1 + n2 + n3 - 1000 : ℤ) : ℝ) := by linarith [hint.2]
      have h2 : (-2 : ℤ) < n1 + n2 + n3 - 1000 := by exact_mod_cast this
      omega
  have hcast : ((n1 + n2 + n3 - 1000 : ℤ) : ℝ) ≤ 1 ∧
      (-1 : ℝ) ≤ ((n1 + n2 + n3 - 1000 : ℤ) : ℝ) := by
    constructor
    · exact_mod_cast habs.1
    · exact_mod_cast habs.2
  rw [e1, e2, e3, abs_le]
  have hc : ((n1 + n2 + n3 - 1000 : ℤ) : ℝ) = (n1 : ℝ) + (n2 : ℝ) + (n3 : ℝ) - 1000 := by
    push_cast
    ring
  rw [hc] at hcast
  constructor
  · linarith [hcast.2]
  · linarith [hcast.1]

/-- C2: for non-negative expected goals, each of the three normalized, rounded
win/draw/loss percentages lies in [0, 100] and the three sum to 100 within a
0.1 rounding tolerance; each field is the rounded percentage of its bucket's
share of the 8×8 truncated Poisson grid. -/
theorem win_probabilities_spec (home_xg away_xg : ℝ)
    (hh : 0 ≤ home_xg) (ha : 0 ≤ away_xg) :
    (calculate_win_probabilities home_xg away_xg).home_win =
      py_round1 (home_win_prob home_xg away_xg / win_total home_xg away_xg * 100) ∧
    (calculate_win_probabilities home_xg away_xg).draw =
      py_round1 (draw_prob home_xg away_xg / win_total home_xg away_xg * 100) ∧
    (calculate_win_probabilities home_xg away_xg).away_win =
      py_round1 (away_win_prob home_xg away_xg / win_total home_xg away_xg * 100) ∧
    (0 ≤ (calculate_win_probabilities home_xg away_xg).home_win ∧
      (calculate_win_probabilities home_xg away_xg).home_win ≤ 100) ∧
    (0 ≤ (calculate_win_probabilities home_xg away_xg).draw ∧
      (calculate_win_probabilities home_xg away_xg).draw ≤ 100) ∧
    (0 ≤ (calculate_win_probabilities home_xg away_xg).away_win ∧
      (calculate_win_probabilities home_xg away_xg).away_win ≤ 100) ∧
    |(calculate_win_probabilities home_xg away_xg).home_win +
      (calculate_win_probabilities home_xg away_xg).draw +
      (calculate_win_probabilities home_xg away_xg).away_win - 100| ≤ 1/10 := by
  have htpos := win_total_pos hh ha
  have hwnn := home_win_prob_nonneg hh ha
  have hdnn := draw_prob_nonneg hh ha
  have hann := away_win_prob_nonneg hh ha
  have hsum : home_win_prob home_xg away_xg + draw_prob home_xg away_xg +
      away_win_prob home_xg away_xg = win_total home_xg away_xg := rfl
  have bound : ∀ p : ℝ, 0 ≤ p → p ≤ win_total home_xg away_xg →
      0 ≤ py_round1 (p / win_total home_xg away_xg * 100) ∧
        py_round1 (p / win_total home_xg away_xg * 100) ≤ 100 := by
    intro p hp hpt
    have h1 : 0 ≤ p / win_total home_xg away_xg * 100 := by positivity
    have h2 : p / win_total home_xg away_xg * 100 ≤ 100 := by
      have hr : p / win_total home_xg away_xg ≤ 1 := (div_le_one htpos).2 hpt
      linarith
    constructor
    · rw [← py_round1_zero]
      exact py_round1_mono h1
    · calc py_round1 (p / win_total home_xg away_xg * 100) ≤ py_round1 100 :=
        py_round1_mono h2
      _ = 100 := py_round1_hundred
  have hratios : home_win_prob home_xg away_xg / win_total home_xg away_xg * 100 +
      draw_prob home_xg away_xg / win_total home_xg away_xg * 100 +
      away_win_prob home_xg away_xg / win_total home_xg away_xg * 100 = 100 := by
    field_simp
    linarith [hsum]
  refine ⟨rfl, rfl, rfl, ?_, ?_, ?_, ?_⟩
  · exact bound _ hwnn (by linarith)
  · exact bound _ hdnn (by linarith)
  · exact bound _ hann (by linarith)
  · exact three_round_sum hratios

theorem win_probabilities_spec_witness :
    (calculate_win_probabilities 1 1).home_win =
      py_round1 (home_win_prob 1 1 / win_total 1 1 * 100) ∧
    (calculate_win_probabilities 1 1).draw =
      py_round1 (draw_prob 1 1 / win_total 1 1 * 100) ∧
    (calculate_win_probabilities 1 1).away_win =
      py_round1 (away_win_prob 1 1 / win_total 1 1 * 100) ∧
    (0 ≤ (calculate_win_probabilities 1 1).home_win ∧
      (calculate_win_probabilities 1 1).home_win ≤ 100) ∧
    (0 ≤ (calculate_win_probabilities 1 1).draw ∧
      (calculate_win_probabilities 1 1).draw ≤ 100) ∧
    (0 ≤ (calculate_win_probabilities 1 1).away_win ∧
      (calculate_win_probabilities 1 1).away_win ≤ 100) ∧
    |(calculate_win_probabilities 1 1).home_win +
      (calculate_win_probabilities 1 1).draw +
      (calculate_win_probabilities 1 1).away_win - 100| ≤ 1/10 :=
  win_probabilities_spec 1 1 (by norm_num) (by norm_num)

theorem home_win_prob_swap (a b : ℝ) : home_win_prob a b = away_win_prob b a := by
  unfold home_win_prob away_win_prob
  rw [Finset.sum_comm]
  refine Finset.sum_congr rfl fun i _ => Finset.sum_congr rfl fun j _ => ?_
  split_ifs
  · ring
  · rfl

theorem draw_prob_swap (a b : ℝ) : draw_prob a b = draw_prob b a := by
  unfold draw_prob
  rw [Finset.sum_comm]
  refine Finset.sum_congr rfl fun i _ => Finset.sum_congr rfl fun j _ => ?_
  split_ifs with h1 h2 h2
  · ring
  · omega
  · omega
  · rfl

theorem win_total_swap (a b : ℝ) : win_total a b = win_total b a := by
  unfold win_total
  rw [home_win_prob_swap, draw_prob_swap, ← home_win_prob_swap (a := b) (b := a)]
  ring

/-- C7: with the 1.15 home-advantage multiplier neutralized (set to 1),
swapping the two input records swaps the two expected-goal scalars; and for
every pair of rates, swapping the rates swaps the reported home-win and
away-win percentages and leaves the draw percentage unchanged. -/
theorem home_away_symmetry (home_data away_data : TeamMetrics) (a b : ℝ) :
    home_expected_goals_adv 1 home_data away_data =
      away_expected_goals away_data home_data ∧
    home_expected_goals_adv 1 away_data home_data =
      away_expected_goals home_data away_data ∧
    (calculate_win_probabilities a b).home_win =
      (calculate_win_probabilities b a).away_win ∧
    (calculate_win_probabilities a b).draw =
      (calculate_win_probabilities b a).draw ∧
    (calculate_win_probabilities a b).away_win =
      (calculate_win_probabilities b a).home_win := by
  refine ⟨?_, ?_, ?_, ?_, ?_⟩
  · unfold home_expected_goals_adv away_expected_goals
    ring
  · unfold home_expected_goals_adv away_expected_goals
    ring
  · show py_round1 (home_win_prob a b / win_total a b * 100) =
      py_round1 (away_win_prob b a / win_total b a * 100)
    rw [home_win_prob_swap, win_total_swap]
  · show py_round1 (draw_prob a b / win_total a b * 100) =
      py_round1 (draw_prob b a / win_total b a * 100)
    rw [draw_prob_swap, win_total_swap]
  · show py_round1 (away_win_prob a b / win_total a b * 100) =
      py_round1 (home_win_prob b a / win_total b a * 100)
    rw [home_win_prob_swap, win_total_swap]

theorem poisson_pmf_zero_rate {i : ℕ} (hi : i ≠ 0) : poisson_pmf i 0 = 0 := by
  obtain ⟨k, rfl⟩ : ∃ k, i = k + 1 := ⟨i - 1, by omega⟩
  exact poisson_pmf_zero_rate_succ k

theorem sum8_pmf_zero_rate : ∑ i ∈ Finset.range 8, poisson_pmf i 0 = 1 := by
  rw [Finset.sum_eq_single_of_mem 0 (by norm_num)
    (fun b _ hb => poisson_pmf_zero_rate hb)]
  rw [poisson_pmf_zero_count, neg_zero, Real.exp_zero]

theorem home_win_prob_zero : home_win_prob 0 0 = 0 := by
  unfold home_win_prob
  refine Finset.sum_eq_zero fun i _ => Finset.sum_eq_zero fun j _ => ?_
  split_ifs with h
  · rw [poisson_pmf_zero_rate (by omega : i ≠ 0)]
    ring
  · rfl

theorem away_win_prob_zero : away_win_prob 0 0 = 0 := by
  unfold away_win_prob
  refine Finset.sum_eq_zero fun i _ => Finset.sum_eq_zero fun j _ => ?_
  split_ifs with h
  · rw [poisson_pmf_zero_rate (by omega : j ≠ 0)]
    ring
  · rfl

theorem win_total_zero : win_total 0 0 = 1 := by
  rw [win_total_eq]
  have hrow : ∀ i ∈ Finset.range 8,
      ∑ j ∈ Finset.range 8, poisson_pmf i 0 * poisson_pmf j 0 = poisson_pmf i 0 := by
    intro i _
    rw [← Finset.mul_sum, sum8_pmf_zero_rate, mul_one]
  rw [Finset.sum_congr rfl hrow, sum8_pmf_zero_rate]

theorem draw_prob_zero : draw_prob 0 0 = 1 := by
  have h := win_total_zero
  unfold win_total at h
  rw [home_win_prob_zero, away_win_prob_zero] at h
  linarith

/-- C8: with both expected-goal rates equal to 0 the Poisson mass sits
entirely at the (0,0) cell, so the engine reports draw = 100.0 with home and
away win percentages 0, a BTTS probability of 0.0 and the BTTS label "No"
(whatever the two team records are). -/
theorem zero_rates_outputs (home_data away_data : TeamMetrics) :
    (calculate_win_probabilities 0 0).draw = 100 ∧
    (calculate_win_probabilities 0 0).home_win = 0 ∧
    (calculate_win_probabilities 0 0).away_win = 0 ∧
    (predict_btts 0 0 home_data away_data).probability = 0 ∧
    (predict_btts 0 0 home_data away_data).prediction = "No" := by
  have hbase : 1 - poisson_pmf 0 (0 : ℝ) = 0 := by
    rw [poisson_pmf_zero_count, neg_zero, Real.exp_zero]
    ring
  have h099 : (0 : ℝ) ≤ 0.99 := by norm_num
  have hX : py_round1 (min 0.99 ((1 - poisson_pmf 0 (0 : ℝ)) *
      ((btts_def_factor away_data.xgot_conceded : ℚ) : ℝ)) *
      min 0.99 ((1 - poisson_pmf 0 (0 : ℝ)) *
        ((btts_def_factor home_data.xgot_conceded : ℚ) : ℝ)) * 100) = 0 := by
    rw [hbase]
    simp only [zero_mul, min_eq_right h099]
    exact py_round1_zero
  refine ⟨?_, ?_, ?_, hX, ?_⟩
  · show py_round1 (draw_prob 0 0 / win_total 0 0 * 100) = 100
    rw [draw_prob_zero, win_total_zero]
    norm_num
    exact py_round1_hundred
  · show py_round1 (home_win_prob 0 0 / win_total 0 0 * 100) = 0
    rw [home_win_prob_zero, win_total_zero]
    norm_num
    exact py_round1_zero
  · show py_round1 (away_win_prob 0 0 / win_total 0 0 * 100) = 0
    rw [away_win_prob_zero, win_total_zero]
    norm_num
    exact py_round1_zero
  · show (if 50 ≤ py_round1 (min 0.99 ((1 - poisson_pmf 0 (0 : ℝ)) *
        ((btts_def_factor away_data.xgot_conceded : ℚ) : ℝ)) *
        min 0.99 ((1 - poisson_pmf 0 (0 : ℝ)) *
          ((btts_def_factor home_data.xgot_conceded : ℚ) : ℝ)) * 100)
        then "Yes" else "No") = "No"
    rw [hX, if_neg (by norm_num)]

theorem poisson_pmf_one (lam : ℝ) : poisson_pmf 1 lam = Real.exp (-lam) * lam := by
  unfold poisson_pmf
  norm_num

theorem poisson_pmf_two (lam : ℝ) :
    poisson_pmf 2 lam = Real.exp (-lam) * lam ^ 2 / 2 := by
  unfold poisson_pmf
  norm_num [Nat.factorial]

theorem over_prob_15 (lam : ℝ) :
    over_prob 1.5 lam = 1 - (poisson_pmf 0 lam + poisson_pmf 1 lam) := by
  unfold over_prob poisson_cdf
  rw [show (1.5 : ℝ) - 0.5 = ((1 : ℤ) : ℝ) by norm_num, Int.floor_intCast]
  rw [show ((1 : ℤ) + 1).toNat = 2 from rfl]
  rw [Finset.sum_range_succ, Finset.sum_range_succ, Finset.sum_range_zero]
  ring

theorem over_prob_25 (lam : ℝ) :
    over_prob 2.5 lam = 1 -
      (poisson_pmf 0 lam + poisson_pmf 1 lam + poisson_pmf 2 lam) := by
  unfold over_prob poisson_cdf
  rw [show (2.5 : ℝ) - 0.5 = ((2 : ℤ) : ℝ) by norm_num, Int.floor_intCast]
  rw [show ((2 : ℤ) + 1).toNat = 3 from rfl]
  rw [Finset.sum_range_succ, Finset.sum_range_succ, Finset.sum_range_succ,
    Finset.sum_range_zero]
  ring

theorem over_prob_35 (lam : ℝ) :
    over_prob 3.5 lam = 1 - (poisson_pmf 0 lam + poisson_pmf 1 lam +
      poisson_pmf 2 lam + poisson_pmf 3 lam) := by
  unfold over_prob poisson_cdf
  rw [show (3.5 : ℝ) - 0.5 = ((3 : ℤ) : ℝ) by norm_num, Int.floor_intCast]
  rw [show ((3 : ℤ) + 1).toNat = 4 from rfl]
  rw [Finset.sum_range_succ, Finset.sum_range_succ, Finset.sum_range_succ,
    Finset.sum_range_succ, Finset.sum_range_zero]
  ring

theorem py_round1_eq_of_bounds {x : ℝ} (n : ℤ)
    (h1 : (n : ℝ) ≤ 10 * x + 1/2) (h2 : 10 * x + 1/2 < (n : ℝ) + 1) :
    py_round1 x = (n : ℝ) / 10 := by
  unfold py_round1
  rw [round_eq]
  have hf : ⌊10 * x + 1/2⌋ = n := Int.floor_eq_iff.2 ⟨h1, by linarith⟩
  rw [hf]

/-- C6 is false as stated: at rates (0, 0) (total rate 0) and also at rates
(10, 10) (total rate 20), the reported over percentages for thresholds 1.5
and 2.5 coincide (0.0 resp. 100.0 after rounding), so the strict chain
over(1.5) > over(2.5) > over(3.5) does not hold for every fixed rate. -/
theorem over_chain_counterexample :
    (predict_over_under 0 0).t15.over = 0 ∧
    (predict_over_under 0 0).t25.over = 0 ∧
    ¬ ((predict_over_under 0 0).t25.over < (predict_over_under 0 0).t15.over) ∧
    (predict_over_under 10 10).t15.over = 100 ∧
    (predict_over_under 10 10).t25.over = 100 ∧
    ¬ ((predict_over_under 10 10).t25.over <
        (predict_over_under 10 10).t15.over) := by
  have hz15 : (predict_over_under 0 0).t15.over = 0 := by
    show py_round1 (over_prob 1.5 ((0 : ℝ) + 0) * 100) = 0
    rw [show ((0 : ℝ) + 0) = 0 by norm_num, over_prob_15, poisson_pmf_zero_count,
      poisson_pmf_one, neg_zero, Real.exp_zero]
    rw [show ((1 : ℝ) - (1 + 1 * 0)) * 100 = 0 by ring]
    exact py_round1_zero
  have hz25 : (predict_over_under 0 0).t25.over = 0 := by
    show py_round1 (over_prob 2.5 ((0 : ℝ) + 0) * 100) = 0
    rw [show ((0 : ℝ) + 0) = 0 by norm_num, over_prob_25, poisson_pmf_zero_count,
      poisson_pmf_one, poisson_pmf_two, neg_zero, Real.exp_zero]
    rw [show ((1 : ℝ) - (1 + 1 * 0 + 1 * 0 ^ 2 / 2)) * 100 = 0 by ring]
    exact py_round1_zero
  have hE0 : 0 < Real.exp (-(20 : ℝ)) := Real.exp_pos _
  have h27 : (2.7 : ℝ) < Real.exp 1 := by
    have h := Real.exp_one_gt_d9
    norm_num at h ⊢
    linarith
  have hexp2 : (7 : ℝ) ≤ Real.exp 2 := by
    have h := Real.exp_add 1 1
    rw [show (1 : ℝ) + 1 = 2 by norm_num] at h
    nlinarith
  have hexp20 : (282475249 : ℝ) ≤ Real.exp 20 := by
    have h : Real.exp ((10 : ℕ) * 2) = Real.exp 2 ^ (10 : ℕ) := Real.exp_nat_mul 2 10
    rw [show ((10 : ℕ) : ℝ) * 2 = 20 by norm_num] at h
    rw [h]
    calc (282475249 : ℝ) = 7 ^ (10 : ℕ) := by norm_num
    _ ≤ Real.exp 2 ^ (10 : ℕ) := by gcongr
  have hEb : Real.exp (-(20 : ℝ)) ≤ 1 / 282475249 := by
    rw [Real.exp_neg, inv_eq_one_div]
    exact one_div_le_one_div_of_le (by norm_num) hexp20
  have hw15 : (predict_over_under 10 10).t15.over = 100 := by
    show py_round1 (over_prob 1.5 ((10 : ℝ) + 10) * 100) = 100
    rw [show ((10 : ℝ) + 10) = 20 by norm_num]
    have hx : over_prob 1.5 20 * 100 = 100 - 2100 * Real.exp (-(20 : ℝ)) := by
      rw [over_prob_15, poisson_pmf_zero_count, poisson_pmf_one]
      ring
    rw [hx, py_round1_eq_of_bounds 1000 (by nlinarith) (by push_cast; nlinarith)]
    norm_num
  have hw25 : (predict_over_under 10 10).t25.over = 100 := by
    show py_round1 (over_prob 2.5 ((10 : ℝ) + 10) * 100) = 100
    rw [show ((10 : ℝ) + 10) = 20 by norm_num]
    have hx : over_prob 2.5 20 * 100 = 100 - 22100 * Real.exp (-(20 : ℝ)) := by
      rw [over_prob_25, poisson_pmf_zero_count, poisson_pmf_one, poisson_pmf_two]
      ring
    rw [hx, py_round1_eq_of_bounds 1000 (by nlinarith) (by push_cast; nlinarith)]
    norm_num
  refine ⟨hz15, hz25, ?_, hw15, hw25, ?_⟩
  · rw [hz15, hz25]
    exact lt_irrefl 0
  · rw [hw15, hw25]
    exact lt_irrefl 100

/-- C6 amended: for non-negative rates the reported over percentages are
non-increasing in the threshold, the unrounded over probabilities are
strictly decreasing whenever the total rate is positive, and for
homeXG = awayXG = 3.0 the 1.5-threshold prediction is "Over". -/
theorem over_chain_monotone (home_xg away_xg : ℝ)
    (hh : 0 ≤ home_xg) (ha : 0 ≤ away_xg) :
    (predict_over_under home_xg away_xg).t25.over ≤
      (predict_over_under home_xg away_xg).t15.over ∧
    (predict_over_under home_xg away_xg).t35.over ≤
      (predict_over_under home_xg away_xg).t25.over ∧
    (0 < home_xg + away_xg →
      over_prob 2.5 (home_xg + away_xg) < over_prob 1.5 (home_xg + away_xg) ∧
      over_prob 3.5 (home_xg + away_xg) < over_prob 2.5 (home_xg + away_xg)) ∧
    (predict_over_under 3 3).t15.prediction = "Over" := by
  have hlam : 0 ≤ home_xg + away_xg := by linarith
  have d1 : over_prob 2.5 (home_xg + away_xg) ≤ over_prob 1.5 (home_xg + away_xg) := by
    rw [over_prob_15, over_prob_25]
    have := poisson_pmf_nonneg 2 hlam
    linarith
  have d2 : over_prob 3.5 (home_xg + away_xg) ≤ over_prob 2.5 (home_xg + away_xg) := by
    rw [over_prob_25, over_prob_35]
    have := poisson_pmf_nonneg 3 hlam
    linarith
  have hp : (50 : ℝ) ≤ py_round1 (over_prob 1.5 ((3 : ℝ) + 3) * 100) := by
    rw [show ((3 : ℝ) + 3) = 6 by norm_num]
    have hexp3 : (4 : ℝ) ≤ Real.exp 3 := by
      nlinarith [Real.add_one_le_exp (3 : ℝ)]
    have hexp6 : (16 : ℝ) ≤ Real.exp 6 := by
      have h := Real.exp_add 3 3
      rw [show (3 : ℝ) + 3 = 6 by norm_num] at h
      nlinarith [Real.exp_pos 3]
    have hE : Real.exp (-(6 : ℝ)) ≤ 1 / 16 := by
      rw [Real.exp_neg, inv_eq_one_div]
      exact one_div_le_one_div_of_le (by norm_num) hexp6
    have hx : over_prob 1.5 6 * 100 = 100 - 700 * Real.exp (-(6 : ℝ)) := by
      rw [over_prob_15, poisson_pmf_zero_count, poisson_pmf_one]
      ring
    rw [hx]
    have h50 : py_round1 (50 : ℝ) = 50 := by
      have h := py_round1_int_tenths 500
      norm_num at h
      exact h
    calc (50 : ℝ) = py_round1 50 := h50.symm
    _ ≤ py_round1 (100 - 700 * Real.exp (-(6 : ℝ))) := py_round1_mono (by nlinarith)
  refine ⟨?_, ?_, ?_, ?_⟩
  · show py_round1 (over_prob 2.5 (home_xg + away_xg) * 100) ≤
      py_round1 (over_prob 1.5 (home_xg + away_xg) * 100)
    exact py_round1_mono (by nlinarith)
  · show py_round1 (over_prob 3.5 (home_xg + away_xg) * 100) ≤
      py_round1 (over_prob 2.5 (home_xg + away_xg) * 100)
    exact py_round1_mono (by nlinarith)
  · intro hpos
    constructor
    · rw [over_prob_15, over_prob_25]
      have := poisson_pmf_pos 2 hpos
      linarith
    · rw [over_prob_25, over_prob_35]
      have := poisson_pmf_pos 3 hpos
      linarith
  · show (if 50 ≤ py_round1 (over_prob 1.5 ((3 : ℝ) + 3) * 100)
        then "Over" else "Under") = "Over"
    rw [if_pos hp]

theorem over_chain_monotone_witness :
    (predict_over_under 1 1).t25.over ≤ (predict_over_under 1 1).t15.over ∧
    (predict_over_under 1 1).t35.over ≤ (predict_over_under 1 1).t25.over ∧
    (0 < (1 : ℝ) + 1 →
      over_prob 2.5 ((1 : ℝ) + 1) < over_prob 1.5 ((1 : ℝ) + 1) ∧
      over_prob 3.5 ((1 : ℝ) + 1) < over_prob 2.5 ((1 : ℝ) + 1)) ∧
    (predict_over_under 3 3).t15.prediction = "Over" :=
  over_chain_monotone 1 1 (by norm_num) (by norm_num)

theorem rank_order_le {a b : (ℕ × ℕ) × ℝ} (h : rank_order a b) : b.2 ≤ a.2 := by
  rcases h with h | ⟨h1, _⟩
  · exact le_of_lt h
  · exact le_of_eq h1.symm

/-- Inserting an element that is lexicographically before every current
equal-probability element preserves the `rank_order` pairwise invariant:
this is the stability argument for one step of the insertion sort. -/
theorem pairwise_orderedInsert (x : (ℕ × ℕ) × ℝ) (l : List ((ℕ × ℕ) × ℝ))
    (hx : ∀ y ∈ l, x.2 = y.2 → lex_lt x.1 y.1) (hl : l.Pairwise rank_order) :
    (List.orderedInsert desc_by_prob x l).Pairwise rank_order := by
  induction l with
  | nil => simp
  | cons y t ih =>
    rw [List.pairwise_cons] at hl
    rw [List.orderedInsert]
    split_ifs with h
    · have hxy : rank_order x y := by
        rcases lt_or_eq_of_le (h : y.2 ≤ x.2) with hlt | heq
        · exact Or.inl hlt
        · exact Or.inr ⟨heq.symm, hx y (by simp) heq.symm⟩
      refine List.Pairwise.cons ?_ (List.Pairwise.cons hl.1 hl.2)
      intro w hw
      rcases List.mem_cons.1 hw with rfl | hwt
      · exact hxy
      · have hwy : w.2 ≤ y.2 := rank_order_le (hl.1 w hwt)
        rcases lt_or_eq_of_le (le_trans hwy h) with hlt | heq
        · exact Or.inl hlt
        · exact Or.inr ⟨heq.symm, hx w (by simp [hwt]) heq.symm⟩
    · have hxy : x.2 < y.2 := not_le.1 h
      refine List.Pairwise.cons ?_ (ih (fun z hz hze => hx z (by simp [hz]) hze) hl.2)
      intro w hw
      rcases (List.mem_orderedInsert desc_by_prob).1 hw with rfl | hwt
      · exact Or.inl hxy
      · exact hl.1 w hwt

/-- The full stability invariant: if the input list's exact-probability ties
are already in ascending `lex_lt` order, then the stable descending insertion
sort emits the list in `rank_order`. -/
theorem pairwise_insertionSort (l : List ((ℕ × ℕ) × ℝ))
    (hl : l.Pairwise fun p q => p.2 = q.2 → lex_lt p.1 q.1) :
    (List.insertionSort desc_by_prob l).Pairwise rank_order := by
  induction l with
  | nil => simp
  | cons x xs ih =>
    rw [List.pairwise_cons] at hl
    rw [List.insertionSort]
    refine pairwise_orderedInsert x _ ?_ (ih hl.2)
    intro y hy hye
    exact hl.1 y ((List.perm_insertionSort desc_by_prob xs).mem_iff.1 hy) hye

theorem score_grid_lex : score_grid.Pairwise lex_lt := by
  rw [show score_grid = [(0,0),(0,1),(0,2),(0,3),(0,4),(0,5),
    (1,0),(1,1),(1,2),(1,3),(1,4),(1,5),
    (2,0),(2,1),(2,2),(2,3),(2,4),(2,5),
    (3,0),(3,1),(3,2),(3,3),(3,4),(3,5),
    (4,0),(4,1),(4,2),(4,3),(4,4),(4,5),
    (5,0),(5,1),(5,2),(5,3),(5,4),(5,5)] from rfl]
  decide

theorem scoreline_probs_ties (home_xg away_xg : ℝ) :
    (scoreline_probs home_xg away_xg).Pairwise
      fun p q => p.2 = q.2 → lex_lt p.1 q.1 := by
  unfold scoreline_probs
  rw [List.pairwise_map]
  refine List.Pairwise.imp ?_ score_grid_lex
  intro a b h hx
  exact h

/-- C4: the scoreline ranker enumerates the 36 pairs with coordinates in
[0,5] in ascending lexicographic order, stable-sorts them by descending joint
Poisson probability (exact ties keeping the lexicographically-earlier pair
first), and returns exactly the first 3, formatted `"h-a"` with rounded
percentage probabilities, non-increasing in probability. -/
theorem scorelines_spec (home_xg away_xg : ℝ)
    (_hh : 0 ≤ home_xg) (_ha : 0 ≤ away_xg) :
    score_grid.length = 36 ∧
    score_grid.Pairwise lex_lt ∧
    (List.insertionSort desc_by_prob (scoreline_probs home_xg away_xg)).Perm
      (scoreline_probs home_xg away_xg) ∧
    (List.insertionSort desc_by_prob (scoreline_probs home_xg away_xg)).Pairwise
      rank_order ∧
    predict_scorelines home_xg away_xg =
      ((List.insertionSort desc_by_prob (scoreline_probs home_xg away_xg)).take 3).map
        (fun q => { scoreline := toString q.1.1 ++ "-" ++ toString q.1.2,
                    probability := py_round1 (q.2 * 100) }) ∧
    (predict_scorelines home_xg away_xg).length = 3 ∧
    (predict_scorelines home_xg away_xg).Pairwise
      fun e e2 => e2.probability ≤ e.probability := by
  have hsorted := pairwise_insertionSort _ (scoreline_probs_ties home_xg away_xg)
  have hperm := List.perm_insertionSort desc_by_prob (scoreline_probs home_xg away_xg)
  have hlen : (List.insertionSort desc_by_prob (scoreline_probs home_xg away_xg)).length
      = 36 := by
    rw [hperm.length_eq]
    unfold scoreline_probs
    rw [List.length_map]
    rfl
  refine ⟨rfl, score_grid_lex, hperm, hsorted, rfl, ?_, ?_⟩
  · unfold predict_scorelines
    rw [List.length_map, List.length_take, hlen]
    decide
  · unfold predict_scorelines
    rw [List.pairwise_map]
    have htake := hsorted.sublist (List.take_sublist 3 _)
    exact htake.imp fun h =>
      py_round1_mono (mul_le_mul_of_nonneg_right (rank_order_le h) (by norm_num))

theorem scorelines_spec_witness :
    score_grid.length = 36 ∧
    score_grid.Pairwise lex_lt ∧
    (List.insertionSort desc_by_prob (scoreline_probs 1 1)).Perm
      (scoreline_probs 1 1) ∧
    (List.insertionSort desc_by_prob (scoreline_probs 1 1)).Pairwise rank_order ∧
    predict_scorelines 1 1 =
      ((List.insertionSort desc_by_prob (scoreline_probs 1 1)).take 3).map
        (fun q => { scoreline := toString q.1.1 ++ "-" ++ toString q.1.2,
                    probability := py_round1 (q.2 * 100) }) ∧
    (predict_scorelines 1 1).length = 3 ∧
    (predict_scorelines 1 1).Pairwise
      fun e e2 => e2.probability ≤ e.probability :=
  scorelines_spec 1 1 (by norm_num) (by norm_num)

end FootyCast
